import Mathlib

/-!
Verification of `src/backend/utils/robust_letter_generator.py`.

The development has three layers:

1. A model of CPython's indentation tokenizer, applied to the per-line
   indentation data of the source file (`pyLines`), to settle whether the
   module parses at all.
2. A shallow embedding of `generate_letter_pdf` as a draw-trace function,
   following the literal statement placement of the source (in particular,
   line 82 `c.save()` and the `return` starting at line 85 sit inside the
   `for idx, s in enumerate(signers)` loop body).
3. A shallow embedding of `process_signature_image`, parameterised over an
   environment that models the fallible library calls (base64 decode, image
   open, temp-file creation, image save).
-/

namespace RobustLetterGenerator

/-- One logical line of the Python source: its 1-based line number, its
indentation in spaces, and whether it ends in `:` opening a suite.
Blank lines, comment-only lines and continuation lines (inside an open
bracket or a triple-quoted string) are not logical lines and are omitted,
as CPython's tokenizer ignores their indentation. -/
structure PyLine where
  lineNo : Nat
  indent : Nat
  opener : Bool
deriving DecidableEq, Repr

/-- The logical lines of `robust_letter_generator.py`, transcribed from the
file: (line number, indent, opens-a-suite).  The docstrings at lines 2-5 and
32-39 are single logical lines starting at 2 and 32; the bracketed `return`
at lines 85-90 and the dict literal at lines 143-147 are single logical
lines starting at 85 and 143. -/
def pyLineData : List (Nat × Nat × Bool) :=
  [(2, 0, false),
   (7, 0, false), (8, 0, false), (9, 0, false), (10, 0, false), (11, 0, false),
   (12, 0, false), (13, 0, false), (14, 0, false), (15, 0, false), (16, 0, false),
   (17, 0, false), (18, 0, false), (19, 0, false), (20, 0, false), (21, 0, false),
   (25, 0, true), (26, 4, false), (27, 4, false),
   (28, 0, true), (29, 4, false),
   (31, 0, true),
   (32, 4, false),
   (40, 4, false), (41, 4, false), (42, 4, false), (43, 4, false),
   (45, 8, false),
   (46, 4, false),
   (49, 4, false), (50, 4, false), (51, 4, false), (52, 4, false), (53, 4, false),
   (54, 4, false),
   (57, 4, false), (58, 4, false),
   (59, 4, true), (60, 8, false),
   (61, 4, false),
   (64, 4, false), (65, 4, false), (66, 4, false), (67, 4, false), (68, 4, false),
   (70, 4, true),
   (71, 8, false),
   (72, 8, true), (73, 12, false),
   (74, 8, true), (75, 12, false), (76, 12, false),
   (77, 8, false), (78, 8, false), (79, 8, false), (80, 8, false),
   (82, 8, false),
   (85, 12, false),
   (92, 0, true),
   (93, 4, false),
   (94, 4, true),
   (96, 8, true), (97, 12, false),
   (100, 8, false), (103, 8, false),
   (106, 8, true), (107, 12, false),
   (110, 8, false), (111, 8, false), (112, 8, false), (114, 8, false),
   (116, 4, true), (117, 8, false), (118, 8, false),
   (120, 0, true),
   (121, 4, false), (122, 4, false),
   (124, 4, true), (125, 8, false), (126, 8, false),
   (128, 4, true),
   (130, 8, false), (132, 8, false), (133, 8, false), (134, 8, false),
   (137, 8, false), (140, 8, false),
   (142, 4, true), (143, 8, false), (148, 8, false)]

def pyLines : List PyLine :=
  pyLineData.map (fun t => ⟨t.1, t.2.1, t.2.2⟩)

/-- Pop indentation levels off the stack until the top equals `i`
(a dedent must return to an enclosing level exactly); `none` is the
tokenizer's "unindent does not match any outer indentation level" error. -/
def popTo : List Nat → Nat → Option (List Nat)
  | [], _ => none
  | t :: rest, i =>
    if t = i then some (t :: rest)
    else if i < t then popTo rest i
    else none

/-- CPython's indentation discipline over a list of logical lines, with an
indent stack and a flag recording whether the previous line opened a suite.
Returns the line number of the first indentation error, or `none` if the
lines tokenize cleanly (`some 0` marks an end of file while an indented
suite is still expected). -/
def checkFrom : List Nat → Bool → List PyLine → Option Nat
  | _, expect, [] => if expect then some 0 else none
  | stack, expect, l :: rest =>
    let top := stack.headD 0
    if expect then
      if top < l.indent then checkFrom (l.indent :: stack) l.opener rest
      else some l.lineNo
    else if l.indent = top then checkFrom stack l.opener rest
    else if top < l.indent then some l.lineNo
    else
      match popTo stack l.indent with
      | some stack2 => checkFrom stack2 l.opener rest
      | none => some l.lineNo

/-- The first indentation error CPython reports when tokenizing the file. -/
def firstIndentError : Option Nat :=
  checkFrom [0] false pyLines

/-- Line `n` is an "unexpected indent": it is indented strictly deeper than
the logical line immediately before it although that line opens no suite. -/
def unexpectedIndentAt (ls : List PyLine) (n : Nat) : Bool :=
  (ls.zip ls.tail).any fun p =>
    p.2.lineNo = n && !p.1.opener && p.1.indent < p.2.indent

/-- Outcome of one script invocation: the lines printed on standard output
and the process exit code. -/
structure ScriptRun where
  stdout : List String
  exitCode : Nat
deriving DecidableEq, Repr

/-- Whether `import`-ing / executing the module gets past compilation. -/
def moduleLoads : Bool :=
  firstIndentError.isNone

/-- Running `python robust_letter_generator.py <argv>`: CPython first
compiles the whole file; only if that succeeds does the `__main__` block
(abstracted as `mainBehavior`) run.  A compilation failure prints a
traceback on standard error - nothing on standard output - and exits 1. -/
def runScript (mainBehavior : List String → ScriptRun) (argv : List String) :
    ScriptRun :=
  if moduleLoads then mainBehavior argv else ⟨[], 1⟩

/-- ReportLab's A4 width in points: 210 mm at 72/25.4 points per mm. -/
def pageWidth : ℚ := 75600 / 127

/-- ReportLab's A4 height in points: 297 mm at 72/25.4 points per mm. -/
def pageHeight : ℚ := 106920 / 127

/-- One drawing call issued against the ReportLab canvas (or against the
text object the body is written into, flattened into the same trace). -/
inductive DrawOp where
  | setFont (font : String) (size : ℚ)
  | drawString (x y : ℚ) (text : String)
  | drawImage (path : String) (x y w h : ℚ)
  | beginText (x y : ℚ)
  | textLine (text : String)
  | drawText
  | save
deriving DecidableEq, Repr

/-- A signer object from the JSON payload; `signatureImagePath` is `none`
when the key is absent (or null in the JSON). -/
structure Signer where
  name : String
  role : String
  date : String
  signatureImagePath : Option String
deriving DecidableEq, Repr

/-- The dict built by the `return` at lines 85-90 (its `'success': True`
entry is carried by this record being the success variant). -/
structure SuccessResult where
  output_path : String
  file_size : Nat
  message : String
deriving DecidableEq, Repr

/-- What a call to `generate_letter_pdf` does: the drawing calls issued, in
order; whether `c.save()` ran (only then is a file written at
`output_file`); and the Python return value (`none` models Python's
implicit `None` when the function falls off its end). -/
structure GenOutcome where
  ops : List DrawOp
  saved : Bool
  ret : Option SuccessResult
deriving DecidableEq, Repr

/-- Python's `str.split(sep)` for a one-character separator, over the
character list: splitting never drops pieces, so `""` gives `[""]` and a
trailing separator gives a trailing `""`, exactly as in Python. -/
def splitChar (c : Char) : List Char → List (List Char)
  | [] => [[]]
  | a :: rest =>
    match splitChar c rest with
    | [] => [[]]
    | h :: t => if a = c then [] :: h :: t else (a :: h) :: t

/-- `s.split(sep)` for a one-character separator string. -/
def pySplit (sep : Char) (s : String) : List String :=
  (splitChar sep s.data).map String.mk

/-- The whitespace set of Python's `str.strip()` with no argument. -/
def isPyWhitespace (c : Char) : Bool :=
  c = ' ' || c = '\t' || c = '\n' || c = '\r' || c = '\x0b' || c = '\x0c'

/-- Python's `line.strip()`: drop leading and trailing whitespace. -/
def pyStrip (s : String) : String :=
  String.mk (((s.data.dropWhile isPyWhitespace).reverse.dropWhile
    isPyWhitespace).reverse)

/-- Python's `s.startswith(prefixStr)`, over character lists. -/
def startsWithList : List Char → List Char → Bool
  | _, [] => true
  | [], _ :: _ => false
  | a :: as, b :: bs => a = b && startsWithList as bs

def pyStartsWith (s prefixStr : String) : Bool :=
  startsWithList s.data prefixStr.data

/-- Header block, lines 49-54.  `todayStr` is `date.today()` formatted as
"Month DD, YYYY" - a process-time input, passed as a parameter. -/
def headerOps (todayStr : String) : List DrawOp :=
  [DrawOp.setFont "Helvetica-Bold" 14,
   DrawOp.drawString 50 (pageHeight - 50) "Veltech University",
   DrawOp.setFont "Helvetica" 12,
   DrawOp.drawString 50 (pageHeight - 70) "Department of Computer Science",
   DrawOp.drawString 50 (pageHeight - 90) "Chennai, Tamil Nadu",
   DrawOp.drawString 50 (pageHeight - 110) todayStr]

/-- Letter body, lines 57-61: a text object at (50, height-150), font
Helvetica 12, one `textLine` per `"\n"`-split piece of `letter_text`, each
stripped of surrounding whitespace, then drawn with `c.drawText`. -/
def bodyOps (letter_text : String) : List DrawOp :=
  DrawOp.beginText 50 (pageHeight - 150) ::
  DrawOp.setFont "Helvetica" 12 ::
  ((pySplit '\n' letter_text).map (fun line => DrawOp.textLine (pyStrip line))
    ++ [DrawOp.drawText])

/-- Line 67: `total_width = len(signers) * block_width + (len(signers) - 1)
* spacing`, with `block_width = 150` and `spacing = 60`; for `n = 0` the
Python expression evaluates to `-60`. -/
def total_width (n : Nat) : ℚ :=
  n * 150 + ((n : ℚ) - 1) * 60

/-- Line 68: `start_x = (width - total_width) / 2`. -/
def start_x (n : Nat) : ℚ :=
  (pageWidth - total_width n) / 2

/-- Line 71: `x = start_x + idx * (block_width + spacing)` for a request
with `n` signers. -/
def sigX (n idx : Nat) : ℚ :=
  start_x n + idx * (150 + 60)

/-- The truthiness test of line 72: `s.get("signatureImagePath") and
os.path.exists(s["signatureImagePath"])` - an absent key or empty string is
falsy, otherwise the file must exist. -/
def hasUsableImage (fileExists : String → Bool) (s : Signer) : Bool :=
  match s.signatureImagePath with
  | none => false
  | some p => !p.data.isEmpty && fileExists p

/-- One signer block, lines 72-80, at horizontal position `x` (the row
baseline `y` of line 64 is 100, so the literals below are y, y+20, y-10,
y-25, y-40). -/
def signerBlockOps (fileExists : String → Bool) (x : ℚ) (s : Signer) :
    List DrawOp :=
  (if hasUsableImage fileExists s then
    [DrawOp.drawImage (s.signatureImagePath.getD "") x 100 120 50]
  else
    [DrawOp.setFont "Times-Italic" 20,
     DrawOp.drawString x 120 s.name]) ++
  [DrawOp.setFont "Helvetica" 10,
   DrawOp.drawString x 90 s.name,
   DrawOp.drawString x 75 s.role,
   DrawOp.drawString x 60 ("Date: " ++ s.date)]

/-- Shallow embedding of `generate_letter_pdf` (lines 31-90) under the
literal statement placement of the source: line 82 `c.save()` and the
`return` beginning at line 85 sit inside the `for` loop body of line 70.
So with at least one signer the first iteration draws its block, saves the
canvas and returns; later signers are never reached.  With no signers the
loop body never runs and the function falls off its end: nothing is saved
and Python returns `None`.

Parameters standing for the module-level and OS environment: `cursiveFont`
is the global `CURSIVE_FONT` (in scope but, as the trace shows, never
referenced); `fileExists` models `os.path.exists`; `todayStr` the formatted
`date.today()`; `pdfSize` the byte size of the PDF that `c.save()` writes
at `output_file` (so `os.path.getsize(output_file)` at the return point,
which directly follows the save). -/
def generate_letter_pdf (cursiveFont : String) (fileExists : String → Bool)
    (todayStr : String) (pdfSize : Nat)
    (letter_text : String) (signers : List Signer) (output_file : String) :
    GenOutcome :=
  let pre := headerOps todayStr ++ bodyOps letter_text
  let n := signers.length
  match signers with
  | [] => ⟨pre, false, none⟩
  | s :: _ =>
    ⟨pre ++ (signerBlockOps fileExists (sigX n 0) s ++ [DrawOp.save]), true,
     some ⟨output_file, pdfSize,
           "PDF generated successfully with clean ReportLab"⟩⟩

/-- The module-level global of lines 25-29: `"Cursive"` when registering
`BrushScriptStd.ttf` succeeded, else the fallback `"Times-Italic"`. -/
def CURSIVE_FONT (registrationSucceeded : Bool) : String :=
  if registrationSucceeded then "Cursive" else "Times-Italic"

/-- The text drawn by the `textLine` calls of a trace, in order. -/
def textLinesOf : List DrawOp → List String
  | [] => []
  | DrawOp.textLine t :: rest => t :: textLinesOf rest
  | _ :: rest => textLinesOf rest

/-- Whether an op carries the given string as its text, image path or font
name - used to show a signer leaves no trace at all in an output. -/
def opUsesString (t : String) : DrawOp → Bool
  | DrawOp.setFont f _ => f = t
  | DrawOp.drawString _ _ s => s = t
  | DrawOp.drawImage p _ _ _ _ => p = t
  | DrawOp.textLine s => s = t
  | _ => false

/-- Whether an op is placed at horizontal position `x`. -/
def opAtX (x : ℚ) : DrawOp → Bool
  | DrawOp.drawString a _ _ => a = x
  | DrawOp.drawImage _ a _ _ _ => a = x
  | _ => false

/-- A PIL image object, reduced to the one attribute the code reads. -/
structure PILImageObj where
  mode : String
deriving DecidableEq, Repr

/-- Environment of fallible library calls made by `process_signature_image`:
`base64.b64decode` (raises on bad padding), `PILImage.open` on the decoded
bytes (raises on undecodable data), `tempfile.NamedTemporaryFile` (raises on
I/O error; yields the temp file's name), and `image.save` (raises on I/O
error).  An `Except.error` models the call raising that exception. -/
structure ImgEnv where
  b64decode : String → Except String (List Nat)
  imageOpen : List Nat → Except String PILImageObj
  mkTemp : Except String String
  imageSave : PILImageObj → String → Except String Unit

/-- The `try` suite of `process_signature_image`, lines 95-114: strip a
`data:image` prefix (the `split(',')[1]` raising IndexError when there is
no comma), base64-decode, open as a PIL image, convert to RGB if needed,
save as PNG into a fresh temp file, return the temp file's name.  Any
raised exception surfaces as `Except.error`. -/
def process_signature_image_try (env : ImgEnv) (signature_data : String) :
    Except String String := do
  let sd ←
    if pyStartsWith signature_data "data:image" then
      match (pySplit ',' signature_data).get? 1 with
      | some t => pure t
      | none => Except.error "IndexError: list index out of range"
    else pure signature_data
  let image_data ← env.b64decode sd
  let image ← env.imageOpen image_data
  let image := if image.mode ≠ "RGB" then PILImageObj.mk "RGB" else image
  let temp_name ← env.mkTemp
  let _ ← env.imageSave image temp_name
  pure temp_name

/-- `process_signature_image` (lines 92-118): the whole body runs inside
`try ... except Exception`, so a raise anywhere becomes a printed
diagnostic (second component: the lines printed) and a `None` return. -/
def process_signature_image (env : ImgEnv) (signature_data : String) :
    Option String × List String :=
  match process_signature_image_try env signature_data with
  | Except.ok p => (some p, [])
  | Except.error e => (none, ["Error processing signature image: " ++ e])

/-! Helper lemmas shared by several claim theorems. -/

theorem moduleLoads_eq_false : moduleLoads = false := by decide

theorem runScript_always_fails (mainBehavior : List String → ScriptRun)
    (argv : List String) : runScript mainBehavior argv = ⟨[], 1⟩ := by
  simp [runScript, moduleLoads_eq_false]

theorem textLinesOf_append (a b : List DrawOp) :
    textLinesOf (a ++ b) = textLinesOf a ++ textLinesOf b := by
  induction a with
  | nil => rfl
  | cons op rest ih => cases op <;> simp [textLinesOf, ih]

theorem textLinesOf_map_strip (ls : List String) :
    textLinesOf (ls.map fun line => DrawOp.textLine (pyStrip line))
      = ls.map pyStrip := by
  induction ls with
  | nil => rfl
  | cons l rest ih => simp [textLinesOf, ih]

theorem textLinesOf_headerOps (today : String) :
    textLinesOf (headerOps today) = [] := rfl

theorem textLinesOf_bodyOps (lt : String) :
    textLinesOf (bodyOps lt) = (pySplit '\n' lt).map pyStrip := by
  simp [bodyOps, textLinesOf, textLinesOf_append, textLinesOf_map_strip]

theorem textLinesOf_signerBlockOps (fe : String → Bool) (x : ℚ) (s : Signer) :
    textLinesOf (signerBlockOps fe x s) = [] := by
  by_cases h : hasUsableImage fe s <;>
    simp [signerBlockOps, h, textLinesOf_append, textLinesOf]

theorem bodyOps_any_opAtX (q : ℚ) (lt : String) :
    (bodyOps lt).any (opAtX q) = false := by
  simp [bodyOps, opAtX, List.any_map, Function.comp]

/-! The claim theorems. -/

/-- C3: the source file is not syntactically valid Python - line 45 and
line 85 are both indented deeper than their predecessors although no suite
is open there, CPython's tokenizer rejects the file at line 45, and hence
every invocation of the script dies at module compilation, exiting 1 with
nothing (in particular no result JSON line) on standard output. -/
theorem c3_module_never_loads :
    firstIndentError = some 45
    ∧ unexpectedIndentAt pyLines 45 = true
    ∧ unexpectedIndentAt pyLines 85 = true
    ∧ ∀ (mainBehavior : List String → ScriptRun) (argv : List String),
        runScript mainBehavior argv = ⟨[], 1⟩ := by
  refine ⟨by decide, by decide, by decide, fun mb argv => ?_⟩
  simp [runScript, moduleLoads_eq_false]

/-- C1 (code bug): at the well-formed request with zero signers (letter
text "Dear Sir,", output path "/tmp/t2.pdf") the loop body containing
`c.save()` and the `return` never runs, so `generate_letter_pdf` never
saves the canvas (no file is written) and returns Python `None` instead of
the promised Success record with file_size > 0. -/
theorem c1_zero_signers_no_success :
    (generate_letter_pdf "Times-Italic" (fun _ => false) "September 1, 2025"
        1024 "Dear Sir," [] "/tmp/t2.pdf").saved = false
    ∧ (generate_letter_pdf "Times-Italic" (fun _ => false) "September 1, 2025"
        1024 "Dear Sir," [] "/tmp/t2.pdf").ret = none :=
  ⟨rfl, rfl⟩

/-- C2: under the literal statement placement, with at least two signers
the trace is exactly header, body, the first signer's block, then the save
- the later signers' blocks are never drawn before the canvas is saved and
the Success record is returned - and with zero signers the loop body never
runs: nothing is saved and no Success record is returned. -/
theorem c2_save_and_return_inside_loop (cf : String) (fe : String → Bool)
    (today : String) (sz : Nat) (lt : String) (s0 s1 : Signer)
    (rest : List Signer) (outputFile : String) :
    (generate_letter_pdf cf fe today sz lt (s0 :: s1 :: rest) outputFile).ops
      = (headerOps today ++ bodyOps lt)
        ++ (signerBlockOps fe (sigX (s0 :: s1 :: rest).length 0) s0
            ++ [DrawOp.save])
    ∧ (generate_letter_pdf cf fe today sz lt (s0 :: s1 :: rest) outputFile).ret
      = some ⟨outputFile, sz, "PDF generated successfully with clean ReportLab"⟩
    ∧ (generate_letter_pdf cf fe today sz lt [] outputFile).saved = false
    ∧ (generate_letter_pdf cf fe today sz lt [] outputFile).ret = none :=
  ⟨rfl, rfl, rfl, rfl⟩

/-- C4 (code bug): the script invoked with the malformed-JSON argument
"{not valid json" prints no JSON line at all - module compilation fails
first, so standard output stays empty and the process exits 1; the
top-level `except` that would have produced the Failure record never
runs. -/
theorem c4_malformed_json_prints_nothing
    (mainBehavior : List String → ScriptRun) :
    runScript mainBehavior ["\x7bnot valid json"] = ⟨[], 1⟩
    ∧ (runScript mainBehavior ["\x7bnot valid json"]).stdout = [] := by
  constructor
  · simp [runScript, moduleLoads_eq_false]
  · simp [runScript, moduleLoads_eq_false]

/-- C9 (code bug): with no argument the script exits 1 but prints no usage
message on standard output, and with a (valid JSON) argument it still
exits 1 with empty standard output instead of exiting zero and reporting
through the JSON body - module compilation fails before `__main__` runs. -/
theorem c9_exit_status_and_usage (mainBehavior : List String → ScriptRun) :
    (runScript mainBehavior []).stdout = []
    ∧ (runScript mainBehavior []).exitCode = 1
    ∧ (runScript mainBehavior ["[]"]).stdout = []
    ∧ (runScript mainBehavior ["[]"]).exitCode = 1 := by
  refine ⟨?_, ?_, ?_, ?_⟩ <;> simp [runScript, moduleLoads_eq_false]

/-- The two-signer request used to exhibit the early save/return: Alice
then Bob, neither with a signature image, rendered with no file existing
on disk. -/
def runAliceBob : GenOutcome :=
  generate_letter_pdf "Times-Italic" (fun _ => false) "May 1, 2025" 2048
    "Request approved."
    [⟨"Alice", "HOD", "2024-01-01", none⟩, ⟨"Bob", "Dean", "2024-01-02", none⟩]
    "/tmp/t1.pdf"

/-- C5 (code bug): the centering formula itself matches the claim
(start_x = (page_width - (N*150 + (N-1)*60)) / 2 at N = 2), and the first
block is placed at start_x, but with two signers no drawing op at all is
placed at the second block's position x = start_x + 1*(150+60) and the
second signer's strings never appear: the save and return inside the loop
cut the row short, so the blocks are not all placed left-to-right as
claimed. -/
theorem c5_second_block_never_placed :
    start_x 2 = (pageWidth - (2 * 150 + 1 * 60)) / 2
    ∧ DrawOp.drawString (sigX 2 0) 120 "Alice" ∈ runAliceBob.ops
    ∧ runAliceBob.ops.any (opUsesString "Bob") = false
    ∧ runAliceBob.ops.any (opAtX (sigX 2 1)) = false := by
  refine ⟨?_, ?_, ?_, ?_⟩
  · norm_num [start_x, total_width]
  · simp [runAliceBob, generate_letter_pdf, signerBlockOps, hasUsableImage]
  · decide
  · have hb := bodyOps_any_opAtX (sigX 2 1) "Request approved."
    simp [runAliceBob, generate_letter_pdf, signerBlockOps, hasUsableImage,
      headerOps, List.any_append, hb, opAtX]
    norm_num [sigX, start_x, total_width, pageWidth]

/-- The two-signer request used for the fallback claim: Carol has no
`signatureImagePath` key and Dave has an empty one; no file exists on
disk, so both signers are in the fallback case. -/
def runCarolDave : GenOutcome :=
  generate_letter_pdf "Cursive" (fun _ => false) "June 2, 2025" 4096
    "To whom it may concern"
    [⟨"Carol", "Professor", "2025-06-01", none⟩,
     ⟨"Dave", "Registrar", "2025-06-02", some ""⟩]
    "/tmp/letter.pdf"

/-- C7 (code bug): for the first image-less signer the fallback is drawn as
claimed - Times-Italic 20 name above the block plus name, role and date
below - but the second image-less signer gets nothing at all (no fallback
signature, no name, no role, no date): the return inside the loop ends the
function after the first signer, so the fallback is not drawn for every
image-less signer. -/
theorem c7_fallback_only_for_first_signer :
    DrawOp.setFont "Times-Italic" 20 ∈ runCarolDave.ops
    ∧ DrawOp.drawString (sigX 2 0) 120 "Carol" ∈ runCarolDave.ops
    ∧ DrawOp.drawString (sigX 2 0) 90 "Carol" ∈ runCarolDave.ops
    ∧ DrawOp.drawString (sigX 2 0) 75 "Professor" ∈ runCarolDave.ops
    ∧ DrawOp.drawString (sigX 2 0) 60 "Date: 2025-06-01" ∈ runCarolDave.ops
    ∧ runCarolDave.ops.any (opUsesString "Dave") = false
    ∧ runCarolDave.ops.any (opUsesString "Registrar") = false := by
  refine ⟨?_, ?_, ?_, ?_, ?_, ?_, ?_⟩
  · simp [runCarolDave, generate_letter_pdf, signerBlockOps, hasUsableImage]
  · simp [runCarolDave, generate_letter_pdf, signerBlockOps, hasUsableImage]
  · simp [runCarolDave, generate_letter_pdf, signerBlockOps, hasUsableImage]
  · simp [runCarolDave, generate_letter_pdf, signerBlockOps, hasUsableImage]
  · simp [runCarolDave, generate_letter_pdf, signerBlockOps, hasUsableImage]
  · decide
  · decide

/-- C6: for every letter text (and every environment and signer list) the
renderer issues exactly one `textLine` per `"\n"`-split input line, each
stripped of surrounding whitespace, in the original order - line breaks
are never merged and lines never re-wrapped. -/
theorem c6_one_output_line_per_input_line (cf : String) (fe : String → Bool)
    (today : String) (sz : Nat) (lt : String) (signers : List Signer)
    (outputFile : String) :
    textLinesOf (generate_letter_pdf cf fe today sz lt signers outputFile).ops
      = (pySplit '\n' lt).map pyStrip := by
  cases signers with
  | nil =>
    simp [generate_letter_pdf, textLinesOf_append, textLinesOf_headerOps,
      textLinesOf_bodyOps]
  | cons s rest =>
    simp [generate_letter_pdf, textLinesOf_append, textLinesOf_headerOps,
      textLinesOf_bodyOps, textLinesOf_signerBlockOps, textLinesOf,
      textLinesOf_map_strip]

/-- C8: whenever the body of `process_signature_image` fails anywhere
(bad base64, undecodable image bytes, temp-file or save I/O error - any
`Except.error` of the `try` suite), the exception is caught locally, the
diagnostic line is printed, and the function returns `None`; the return
type `Option String × List String` carries no exception, so nothing is
ever raised to the caller. -/
theorem c8_any_failure_returns_none (env : ImgEnv) (s e : String)
    (h : process_signature_image_try env s = Except.error e) :
    process_signature_image env s
      = (none, ["Error processing signature image: " ++ e]) := by
  simp [process_signature_image, h]

/-- An environment in which `base64.b64decode` raises, as it does for input
that is not valid base64. -/
def badBase64Env : ImgEnv :=
  ⟨fun _ => Except.error "Invalid base64-encoded string",
   fun _ => Except.error "cannot identify image file",
   Except.ok "/tmp/tmpabc123.png",
   fun _ _ => Except.ok ()⟩

/-- Witness for C8: the concrete input "%%%" with a failing base64 decoder
makes the try-body fail, and the function returns `None` plus the printed
diagnostic. -/
theorem c8_any_failure_returns_none_witness :
    process_signature_image_try badBase64Env "%%%"
        = Except.error "Invalid base64-encoded string"
    ∧ process_signature_image badBase64Env "%%%"
        = (none,
           ["Error processing signature image: Invalid base64-encoded string"]) :=
  ⟨rfl,
   c8_any_failure_returns_none badBase64Env "%%%"
     "Invalid base64-encoded string" rfl⟩

/-- C10: the fallback signature is always drawn in the built-in
"Times-Italic" font: the output of `generate_letter_pdf` is identical
whether the cursive font registration succeeded or not (the global
CURSIVE_FONT is never referenced by the function), and for a first signer
without a usable image the trace sets font "Times-Italic" 20. -/
theorem c10_cursive_registration_no_effect (reg1 reg2 : Bool) :
    (∀ (fe : String → Bool) (today : String) (sz : Nat) (lt : String)
        (signers : List Signer) (outputFile : String),
        generate_letter_pdf (CURSIVE_FONT reg1) fe today sz lt signers
            outputFile
          = generate_letter_pdf (CURSIVE_FONT reg2) fe today sz lt signers
              outputFile)
    ∧ (∀ (fe : String → Bool) (today : String) (sz : Nat) (lt : String)
        (s : Signer) (rest : List Signer) (outputFile : String),
        hasUsableImage fe s = false →
        DrawOp.setFont "Times-Italic" 20
          ∈ (generate_letter_pdf (CURSIVE_FONT reg1) fe today sz lt
              (s :: rest) outputFile).ops) := by
  constructor
  · intro fe today sz lt signers outputFile
    rfl
  · intro fe today sz lt s rest outputFile h
    simp [generate_letter_pdf, signerBlockOps, h]

/-- Witness for C10: concrete instantiation with a registration-succeeded
and a registration-failed global, a signer without an image, and the
fallback font op present in the trace. -/
theorem c10_cursive_registration_no_effect_witness :
    hasUsableImage (fun _ => false) ⟨"N", "R", "2024-01-01", none⟩ = false
    ∧ DrawOp.setFont "Times-Italic" 20
        ∈ (generate_letter_pdf (CURSIVE_FONT true) (fun _ => false)
            "July 4, 2025" 9 "hello" [⟨"N", "R", "2024-01-01", none⟩]
            "/tmp/w.pdf").ops :=
  ⟨rfl,
   (c10_cursive_registration_no_effect true false).2 (fun _ => false)
     "July 4, 2025" 9 "hello" ⟨"N", "R", "2024-01-01", none⟩ [] "/tmp/w.pdf"
     rfl⟩

end RobustLetterGenerator
